import Mathlib

/-!
# Verification of the Pandora confidence module

Shallow embedding of `src/pandora/confidence/confidence.py`:

* the registry / factory mechanism of `AbstractConfidence.__new__` and
  `AbstractConfidence.register_subclass`;
* the indicator accumulator `AbstractConfidence.allocate_confidence_map`,
  which appends a named 2D confidence map as a new slice of the
  `confidence_measure` layer of the cost volume, and of the disparity map
  when it is not `None`.

Numpy arrays are modelled as shape fields together with a total value
function; each freshly allocated array carries an allocation identifier
(`aid`) drawn from a counter threaded through the computation, so that
storage sharing (aliasing) between the two datasets is expressible.
Fallible steps (numpy broadcast failures, xarray dimension-size conflicts)
return `Except String`.
-/

namespace PandoraConf

/-- A numpy scalar cell: either the NaN sentinel written by `np.full(..., np.nan)`,
or an ordinary numeric value (modelled as a rational). -/
inductive Val where
  | nan : Val
  | num : ℚ → Val
deriving DecidableEq, Repr

/-- The dtype tag of an array; the module only distinguishes 32-bit floats
(everything it allocates is `dtype=np.float32`) from any other dtype. -/
inductive Dtype where
  | float32 : Dtype
  | other : Dtype
deriving DecidableEq, Repr

/-- A 2D numpy array (row, col): the incoming `confidence_map` argument. -/
structure NdArray2 where
  rows : Nat
  cols : Nat
  data : Nat → Nat → Val
  dtype : Dtype

/-- A 3D numpy array (row, col, indicator): a `confidence_measure` layer.
`aid` is the allocation identifier of its storage. -/
structure NdArray3 where
  aid : Nat
  rows : Nat
  cols : Nat
  deep : Nat
  data : Nat → Nat → Nat → Val
  dtype : Dtype

/-- A data variable of an `xarray.Dataset` other than `confidence_measure`
(e.g. the `cost_volume` or `disparity_map` fields). Its contents are opaque
(`payload`); `onIndicator` records whether its dimensions include the
`indicator` dimension, which decides whether `drop_dims('indicator')`
removes it. -/
structure OtherVar where
  vname : String
  onIndicator : Bool
  payload : Nat
deriving DecidableEq, Repr

/-- An `xarray.Dataset` as used by the module: fixed row/col extents, an
optional `confidence_measure` data variable, the `indicator` coordinate
(the ordered list of indicator labels; empty when the dataset has no
confidence layer), and its remaining data variables. -/
structure Dataset where
  nrows : Nat
  ncols : Nat
  confidence_measure : Option NdArray3
  indicator : List String
  data_vars : List OtherVar

/-- Well-formedness of a dataset as xarray guarantees it: when a
`confidence_measure` layer is present its extents agree with the dataset's
dims and its depth with the length of the `indicator` coordinate; when it is
absent there is no `indicator` coordinate. -/
def Dataset.wf (ds : Dataset) : Prop :=
  match ds.confidence_measure with
  | some a => a.rows = ds.nrows ∧ a.cols = ds.ncols ∧ a.deep = ds.indicator.length
  | none => ds.indicator = []

/-! ## Registry and factory (`register_subclass`, `__new__`) -/

/-- A concrete confidence strategy type (an entry of
`confidence_methods_avail`); only its identity matters here. -/
structure Impl where
  tag : Nat
deriving DecidableEq, Repr

/-- The class attribute `confidence_methods_avail`: a Python dict from short
name to strategy type, modelled as an insertion-ordered association list. -/
abbrev Registry := List (String × Impl)

/-- Python dict assignment `d[k] = v`: overwrite the entry of `k` in place
when present, else append a fresh entry at the end. -/
def dictSet (r : Registry) (k : String) (v : Impl) : Registry :=
  match r with
  | [] => [(k, v)]
  | (k1, v1) :: rest =>
      if k1 = k then (k, v) :: rest else (k1, v1) :: dictSet rest k v

/-- Python dict lookup `d[k]`, `none` standing for a `KeyError`. -/
def dictGet (r : Registry) (k : String) : Option Impl :=
  match r with
  | [] => none
  | (k1, v1) :: rest => if k1 = k then some v1 else dictGet rest k

/-- The body of the decorator returned by
`AbstractConfidence.register_subclass(short_name)` applied to `subclass`:
`cls.confidence_methods_avail[short_name] = subclass`. -/
def register_subclass (r : Registry) (short_name : String) (subclass : Impl) : Registry :=
  dictSet r short_name subclass

/-- The value found in the configuration dict at key `confidence_method`:
either a string or some non-string value. -/
inductive CfgVal where
  | str : String → CfgVal
  | nonStr : CfgVal
deriving DecidableEq, Repr

/-- The possible outcomes of `AbstractConfidence.__new__`:

* `instAlloc sub` — `super().__new__(cls.confidence_methods_avail[m])`:
  an instance of the registered concrete type `sub`;
* `instSelf` — the `cls is not AbstractConfidence` branch:
  `super().__new__(cls)` for the concrete subclass itself;
* `noneValue` — the function falls through every `return` and yields
  `None` (the non-string branch);
* `keyError k` — an uncaught Python `KeyError` on key `k`;
* `systemExit code` — `sys.exit(code)`: process termination. -/
inductive NewResult where
  | instAlloc : Impl → NewResult
  | instSelf : NewResult
  | noneValue : NewResult
  | keyError : String → NewResult
  | systemExit : Nat → NewResult
deriving DecidableEq, Repr

/-- Model of `AbstractConfidence.__new__(cls, **cfg)`. `clsIsAbstract` is the test
`cls is AbstractConfidence`; `cfgMethod` is the value of
`cfg['confidence_method']` (`none` when the key is missing). The registry is
returned alongside the outcome to make explicit that construction never
modifies it. -/
def new_ (avail : Registry) (clsIsAbstract : Bool) (cfgMethod : Option CfgVal) :
    NewResult × Registry :=
  if clsIsAbstract then
    match cfgMethod with
    | none => (NewResult.keyError "confidence_method", avail)
    | some (CfgVal.str m) =>
        match dictGet avail m with
        | some sub => (NewResult.instAlloc sub, avail)
        | none => (NewResult.systemExit 1, avail)
    | some CfgVal.nonStr => (NewResult.noneValue, avail)
  else (NewResult.instSelf, avail)

/-! ## Numpy / xarray primitives used by `allocate_confidence_map` -/

/-- Model of `np.full((rows, cols, deep), v, dtype=dt)` with a fresh allocation id. -/
def npFull3 (aid rows cols deep : Nat) (v : Val) (dt : Dtype) : NdArray3 :=
  ⟨aid, rows, cols, deep, fun _ _ _ => v, dt⟩

/-- One axis of numpy broadcasting of a source extent `src` against a
destination extent `dst`: legal when the extents agree or `src` is 1. -/
def canBroadcast (src dst : Nat) : Bool :=
  src == dst || src == 1

/-- The source index used along one broadcast axis: a size-1 source axis is
repeated, any other legal source axis is read at the destination index. -/
def bcastIdx (src i : Nat) : Nat :=
  if src = 1 then 0 else i

/-- The slice assignment `a[:, :, :-1] = src` (shapes agree by
construction): positions with last index below `deep - 1` now read from
`src`, the rest keep their value. -/
def writeOldSlices (a : NdArray3) (src : Nat → Nat → Nat → Val) : NdArray3 :=
  { a with data := (fun r c k => if k + 1 < a.deep then src r c k else a.data r c k) }

/-- The slice assignment `a[:, :, -1] = m` for a 2D `m`: numpy first checks
that `m`'s extents broadcast against `a`'s (row, col) extents and raises a
`ValueError` otherwise; on success the last slice reads from `m` through the
broadcast index maps (values are cast to `a`'s dtype; the cast is modelled
as value-preserving). -/
def writeLastSlice (a : NdArray3) (m : NdArray2) : Except String NdArray3 :=
  if canBroadcast m.rows a.rows && canBroadcast m.cols a.cols then
    Except.ok { a with data := (fun r c k =>
      if k + 1 = a.deep then m.data (bcastIdx m.rows r) (bcastIdx m.cols c)
      else a.data r c k) }
  else
    Except.error "ValueError: could not broadcast input array"

/-- Model of `ds.drop_dims('indicator')`: removes every data variable whose
dimensions include `indicator` — in particular `confidence_measure` — and
the `indicator` coordinate itself. -/
def Dataset.drop_dims_indicator (ds : Dataset) : Dataset :=
  { ds with
    confidence_measure := none
    indicator := []
    data_vars := ds.data_vars.filter (fun v => !v.onIndicator) }

/-- Model of `ds.assign_coords(indicator=labels)`: returns a dataset with the
`indicator` coordinate set to `labels`. -/
def Dataset.assign_coords_indicator (ds : Dataset) (labels : List String) : Dataset :=
  { ds with indicator := labels }

/-- Model of `ds['confidence_measure'] = xr.DataArray(data=a, dims=['row','col','indicator'])`
for a coordinate-free `DataArray`: xarray raises on a size conflict between
the array's dims and the dataset's existing dimension sizes (row, col, and
the `indicator` coordinate length), and stores the array otherwise. -/
def Dataset.set_confidence (ds : Dataset) (a : NdArray3) : Except String Dataset :=
  if a.rows == ds.nrows && a.cols == ds.ncols && a.deep == ds.indicator.length then
    Except.ok { ds with confidence_measure := some a }
  else
    Except.error "ValueError: conflicting sizes for dimension"

/-- Model of `confidence_map[:, :, np.newaxis].astype(np.float32)`: a fresh
(rows, cols, 1) float32 array whose single slice reads from
`confidence_map` (the cast is modelled as value-preserving). -/
def newaxisF32 (aid : Nat) (m : NdArray2) : NdArray3 :=
  ⟨aid, m.rows, m.cols, 1, fun r c _ => m.data r c, Dtype.float32⟩

/-! ## The accumulator (`allocate_confidence_map`) -/

/-- The grow-by-one-indicator procedure that `allocate_confidence_map`
performs verbatim on both the cost volume (lines 128-144) and the disparity
map (lines 152-168) when the dataset already carries a `confidence_measure`
layer `old`:

    conf_measure = np.full((nb_row, nb_col, nb_indicator + 1), np.nan, dtype=np.float32)
    conf_measure[:, :, :-1] = ds['confidence_measure'].data
    conf_measure[:, :, -1] = confidence_map
    indicator = np.append(np.copy(ds.coords['indicator']), name)
    ds = ds.drop_dims('indicator').assign_coords(indicator=indicator)
    ds['confidence_measure'] = xr.DataArray(conf_measure, dims=['row','col','indicator'])

`ctr` is the allocation counter; the new layer's storage gets id `ctr`. -/
def grow_with_indicator (ctr : Nat) (name : String) (confidence_map : NdArray2)
    (ds : Dataset) (old : NdArray3) : Except String (Dataset × Nat) := do
  let conf0 := npFull3 ctr old.rows old.cols (old.deep + 1) Val.nan Dtype.float32
  let conf1 := writeOldSlices conf0 old.data
  let conf2 ← writeLastSlice conf1 confidence_map
  let labels := ds.indicator ++ [name]
  let ds1 := (ds.drop_dims_indicator).assign_coords_indicator labels
  let ds2 ← ds1.set_confidence conf2
  pure (ds2, ctr + 1)

/-- The `else` branch of the cost-volume part (lines 146-149): allocate the
confidence measure in a cost volume that has none yet:

    cv = cv.assign_coords(indicator=[name_confidence_measure])
    cv['confidence_measure'] = xr.DataArray(
        data=confidence_map[:, :, np.newaxis].astype(np.float32),
        dims=['row', 'col', 'indicator'])
-/
def allocate_first_indicator (ctr : Nat) (name : String) (confidence_map : NdArray2)
    (cv : Dataset) : Except String (Dataset × Nat) := do
  let cv1 := cv.assign_coords_indicator [name]
  let cv2 ← cv1.set_confidence (newaxisF32 ctr confidence_map)
  pure (cv2, ctr + 1)

/-- The cost-volume half of `allocate_confidence_map` (lines 127-149):
update the existing layer or allocate a first one. -/
def update_cv (ctr : Nat) (name : String) (confidence_map : NdArray2) (cv : Dataset) :
    Except String (Dataset × Nat) :=
  match cv.confidence_measure with
  | some old => grow_with_indicator ctr name confidence_map cv old
  | none => allocate_first_indicator ctr name confidence_map cv

/-- The disparity-map half of `allocate_confidence_map` (lines 151-170),
run on the already-updated cost volume `cv2`: grow the disparity map's own
layer when it has one, else insert the cost volume's `confidence_measure`
DataArray itself — the same storage, not a copy — together with its
`indicator` coordinate, after xarray's dimension-size conflict check. -/
def update_disp (ctr2 : Nat) (name : String) (confidence_map : NdArray2)
    (disp : Option Dataset) (cv2 : Dataset) :
    Except String (Option Dataset × Dataset × Nat) :=
  match disp with
  | some d =>
      match d.confidence_measure with
      | some oldD => do
          let (d2, ctr3) ← grow_with_indicator ctr2 name confidence_map d oldD
          pure (some d2, cv2, ctr3)
      | none =>
          match cv2.confidence_measure with
          | some a =>
              if a.rows == d.nrows && a.cols == d.ncols then
                Except.ok
                  (some { d with confidence_measure := some a, indicator := cv2.indicator },
                   cv2, ctr2)
              else Except.error "ValueError: conflicting sizes for dimension"
          | none => Except.error "KeyError: confidence_measure"
  | none => Except.ok (none, cv2, ctr2)

/-- Model of `AbstractConfidence.allocate_confidence_map(name_confidence_measure,
confidence_map, disp, cv)`. `ctr` is the allocation counter threaded
through every numpy allocation; the returned triple is
`(disp, cv, next counter)`. An `Except.error` models a raised Python
exception: nothing is returned to the caller and (since every xarray update
in the source rebinds a local name to a new dataset) neither input dataset
has been replaced. -/
def allocate_confidence_map (ctr : Nat) (name_confidence_measure : String)
    (confidence_map : NdArray2) (disp : Option Dataset) (cv : Dataset) :
    Except String (Option Dataset × Dataset × Nat) := do
  let (cv2, ctr2) ← update_cv ctr name_confidence_measure confidence_map cv
  update_disp ctr2 name_confidence_measure confidence_map disp cv2

/-! ## Concrete sample data (the worked example of the specification,
with integer stand-ins for the float values) -/

/-- The first indicator map of the worked example (2×2). -/
def mapAmb : NdArray2 := ⟨2, 2, fun r c => Val.num (1 + 2 * r + c), Dtype.float32⟩

/-- The second indicator map of the worked example (2×2). -/
def mapRisk : NdArray2 := ⟨2, 2, fun r c => Val.num (5 + 2 * r + c), Dtype.float32⟩

/-- A 3×2 map whose row extent disagrees with the 2×2 datasets. -/
def mapBad : NdArray2 := ⟨3, 2, fun _ _ => Val.num 0, Dtype.float32⟩

/-- A 2×2 cost volume with no confidence layer yet. -/
def cv0 : Dataset := ⟨2, 2, none, [], [⟨"cost_volume", false, 42⟩]⟩

/-- A 2×2 disparity map with no confidence layer. -/
def disp0 : Dataset := ⟨2, 2, none, [], [⟨"disparity_map", false, 7⟩]⟩

/-- The confidence layer after merging `mapAmb` into `cv0`. -/
def layerAfterFirst : NdArray3 :=
  ⟨0, 2, 2, 1, fun r c _ => Val.num (1 + 2 * r + c), Dtype.float32⟩

/-- The cost volume after merging `mapAmb` into `cv0`. -/
def cvAfterFirst : Dataset :=
  ⟨2, 2, some layerAfterFirst, ["ambiguity"], [⟨"cost_volume", false, 42⟩]⟩

/-- A default output triple used to extract concrete results. -/
def dfltOut : Option Dataset × Dataset × Nat := (none, cv0, 0)

/-- The concrete result of the first merge of the worked example. -/
def outFirst : Option Dataset × Dataset × Nat :=
  (allocate_confidence_map 0 "ambiguity" mapAmb none cv0).toOption.getD dfltOut

/-- The concrete result of the second merge of the worked example. -/
def outSecond : Option Dataset × Dataset × Nat :=
  (allocate_confidence_map 1 "risk" mapRisk none cvAfterFirst).toOption.getD dfltOut

/-- The concrete result of a merge with a disparity map lacking a layer. -/
def outAlias : Option Dataset × Dataset × Nat :=
  (allocate_confidence_map 0 "ambiguity" mapAmb (some disp0) cv0).toOption.getD dfltOut

/-- The concrete result of growing `cvAfterFirst`'s layer with `mapRisk`. -/
def growSecondOut : Dataset × Nat :=
  (grow_with_indicator 1 "risk" mapRisk cvAfterFirst layerAfterFirst).toOption.getD
    (cvAfterFirst, 0)

/-- A cost volume carrying, besides its confidence layer, an extra data
variable whose dimensions include `indicator`. -/
def cvWithExtra : Dataset :=
  ⟨2, 2, some ⟨0, 2, 2, 1, fun _ _ _ => Val.num 0, Dtype.float32⟩, ["ambiguity"],
   [⟨"extra_metric", true, 5⟩]⟩

/-- A 2×2 all-ones indicator map. -/
def mapOnes : NdArray2 := ⟨2, 2, fun _ _ => Val.num 1, Dtype.float32⟩

/-- The concrete result of merging `mapOnes` into `cvWithExtra`. -/
def outExtra : Option Dataset × Dataset × Nat :=
  (allocate_confidence_map 1 "risk" mapOnes none cvWithExtra).toOption.getD dfltOut

/-! ## Inversion lemmas -/

/-- Monadic bind on a successful `Except` computation reduces to the
continuation. -/
theorem except_ok_bind {α β : Type} (a : α) (f : α → Except String β) :
    (Except.ok a >>= f) = f a := rfl

/-- Monadic bind on a failed `Except` computation propagates the error. -/
theorem except_error_bind {α β : Type} (e : String) (f : α → Except String β) :
    ((Except.error e : Except String α) >>= f) = Except.error e := rfl

/-- The `pure` of the `Except` monad is `Except.ok`. -/
theorem except_pure_eq {α : Type} (a : α) : (pure a : Except String α) = Except.ok a := rfl

/-- Successful `Except` bind splits into two successful stages. -/
theorem except_bind_ok {α β : Type} (x : Except String α) (f : α → Except String β)
    (b : β) (h : (x >>= f) = Except.ok b) : ∃ a, x = Except.ok a ∧ f a = Except.ok b := by
  cases x with
  | error e => rw [except_error_bind] at h; exact Except.noConfusion h
  | ok a => exact ⟨a, rfl, (except_ok_bind a f) ▸ h⟩

/-- What a successful `grow_with_indicator` guarantees: the shapes had to
agree (numpy broadcast of the new map and xarray's size check), the counter
advanced by one, the other data variables not on the indicator dimension
survive, the labels are the old ones with `name` appended, and the new layer
is a fresh float32 array of depth one more whose first slices reproduce the
old data and whose last slice reads the new map. -/
theorem grow_with_indicator_ok (ctr : Nat) (name : String) (m : NdArray2)
    (ds : Dataset) (old : NdArray3) (ds2 : Dataset) (c2 : Nat)
    (h : grow_with_indicator ctr name m ds old = Except.ok (ds2, c2)) :
    (canBroadcast m.rows old.rows && canBroadcast m.cols old.cols) = true ∧
    old.rows = ds.nrows ∧ old.cols = ds.ncols ∧ old.deep = ds.indicator.length ∧
    c2 = ctr + 1 ∧
    ds2.nrows = ds.nrows ∧ ds2.ncols = ds.ncols ∧
    ds2.indicator = ds.indicator ++ [name] ∧
    ds2.data_vars = ds.data_vars.filter (fun v => !v.onIndicator) ∧
    ∃ a, ds2.confidence_measure = some a ∧ a.aid = ctr ∧
      a.rows = old.rows ∧ a.cols = old.cols ∧ a.deep = old.deep + 1 ∧
      a.dtype = Dtype.float32 ∧
      (∀ r c k, k < old.deep → a.data r c k = old.data r c k) ∧
      (∀ r c, a.data r c old.deep = m.data (bcastIdx m.rows r) (bcastIdx m.cols c)) := by
  unfold grow_with_indicator writeLastSlice at h
  simp only [writeOldSlices, npFull3] at h
  split at h
  next hb =>
    rw [except_ok_bind] at h
    simp only [Dataset.set_confidence, Dataset.drop_dims_indicator,
      Dataset.assign_coords_indicator, List.length_append, List.length_singleton] at h
    split at h
    next hc =>
      rw [except_ok_bind, except_pure_eq] at h
      simp only [Except.ok.injEq, Prod.mk.injEq] at h
      obtain ⟨hds2, hc2⟩ := h
      subst hds2
      simp only [Bool.and_eq_true, beq_iff_eq, Nat.add_right_cancel_iff] at hc
      obtain ⟨⟨hrows, hcols⟩, hdeep⟩ := hc
      refine ⟨hb, hrows, hcols, hdeep, hc2.symm, rfl, rfl, rfl, rfl, ?_⟩
      refine ⟨_, rfl, rfl, rfl, rfl, rfl, rfl, ?_, ?_⟩
      · intro r c k hk
        have h1 : ¬(k + 1 = old.deep + 1) := by omega
        have h2 : k + 1 < old.deep + 1 := by omega
        simp [h1, h2]
      · intro r c
        simp
    next hc =>
      rw [except_error_bind] at h
      exact Except.noConfusion h
  next hb =>
    rw [except_error_bind] at h
    exact Except.noConfusion h

/-- What a successful `allocate_first_indicator` guarantees: the map's
extents had to agree with the cost volume's, the counter advanced, all data
variables survive, the labels become `[name]`, and the new layer is a fresh
depth-one float32 array reading the map. -/
theorem allocate_first_ok (ctr : Nat) (name : String) (m : NdArray2)
    (cv : Dataset) (ds2 : Dataset) (c2 : Nat)
    (h : allocate_first_indicator ctr name m cv = Except.ok (ds2, c2)) :
    m.rows = cv.nrows ∧ m.cols = cv.ncols ∧ c2 = ctr + 1 ∧
    ds2.nrows = cv.nrows ∧ ds2.ncols = cv.ncols ∧
    ds2.indicator = [name] ∧ ds2.data_vars = cv.data_vars ∧
    ∃ a, ds2.confidence_measure = some a ∧ a.aid = ctr ∧
      a.rows = m.rows ∧ a.cols = m.cols ∧ a.deep = 1 ∧
      a.dtype = Dtype.float32 ∧
      (∀ r c k, a.data r c k = m.data r c) := by
  unfold allocate_first_indicator at h
  simp only [Dataset.set_confidence, Dataset.assign_coords_indicator, newaxisF32,
    List.length_singleton] at h
  split at h
  next hc =>
    rw [except_ok_bind, except_pure_eq] at h
    simp only [Except.ok.injEq, Prod.mk.injEq] at h
    obtain ⟨hds2, hc2⟩ := h
    subst hds2
    simp only [Bool.and_eq_true, beq_iff_eq] at hc
    exact ⟨hc.1.1, hc.1.2, hc2.symm, rfl, rfl, rfl, rfl, _, rfl, rfl, rfl, rfl, rfl, rfl,
      fun r c k => rfl⟩
  next hc =>
    rw [except_error_bind] at h
    exact Except.noConfusion h

/-- The last element of a list with one element appended. -/
theorem getLast_append_singleton {α : Type} (l : List α) (a : α) :
    (l ++ [a]).getLast? = some a :=
  List.getLast?_concat l

/-- A successful cost-volume half leaves a consistent cost volume: a fresh
float32 layer whose depth equals the label count, with the new name last. -/
theorem update_cv_ok (ctr : Nat) (name : String) (m : NdArray2) (cv : Dataset)
    (cv2 : Dataset) (ctr2 : Nat)
    (h : update_cv ctr name m cv = Except.ok (cv2, ctr2)) :
    ctr2 = ctr + 1 ∧ cv2.nrows = cv.nrows ∧ cv2.ncols = cv.ncols ∧
    ∃ a, cv2.confidence_measure = some a ∧ a.aid = ctr ∧ a.dtype = Dtype.float32 ∧
      a.deep = cv2.indicator.length ∧ cv2.indicator.getLast? = some name := by
  unfold update_cv at h
  cases hm : cv.confidence_measure with
  | some old =>
      rw [hm] at h
      obtain ⟨-, -, -, hdeep, hctr, hrows, hcols, hind, -, a, ha, haid, -, -, hadeep, hdt,
        -, -⟩ := grow_with_indicator_ok ctr name m cv old cv2 ctr2 h
      refine ⟨hctr, hrows, hcols, a, ha, haid, hdt, ?_, ?_⟩
      · rw [hadeep, hind, List.length_append, List.length_singleton, hdeep]
      · rw [hind]; exact getLast_append_singleton _ _
  | none =>
      rw [hm] at h
      obtain ⟨-, -, hctr, hrows, hcols, hind, -, a, ha, haid, -, -, hadeep, hdt, -⟩ :=
        allocate_first_ok ctr name m cv cv2 ctr2 h
      exact ⟨hctr, hrows, hcols, a, ha, haid, hdt, by rw [hadeep, hind]; rfl,
        by rw [hind]; rfl⟩

/-- A broadcast failure of the new map's row extent against an existing
layer makes the cost-volume half fail. -/
theorem update_cv_mismatch (ctr : Nat) (name : String) (m : NdArray2) (cv : Dataset)
    (old : NdArray3) (hcv : cv.confidence_measure = some old)
    (hbc : canBroadcast m.rows old.rows = false) :
    ∃ e, update_cv ctr name m cv = Except.error e := by
  unfold update_cv
  rw [hcv]
  unfold grow_with_indicator writeLastSlice
  simp only [writeOldSlices, npFull3]
  simp [hbc, except_error_bind]

/-- An error of the cost-volume half propagates to the whole call. -/
theorem allocate_error_of_cv_error (ctr : Nat) (name : String) (m : NdArray2)
    (disp : Option Dataset) (cv : Dataset) (e : String)
    (h : update_cv ctr name m cv = Except.error e) :
    allocate_confidence_map ctr name m disp cv = Except.error e := by
  unfold allocate_confidence_map
  rw [h, except_error_bind]

/-- What a successful disparity-map half guarantees: the cost volume passes
through untouched; a `none` disparity map stays `none`; a present disparity
map either grew its own layer, or — when it had none — received the cost
volume's layer itself (the same array) together with its `indicator`
coordinate, everything else about it unchanged. -/
theorem update_disp_ok (ctr2 : Nat) (name : String) (m : NdArray2)
    (disp : Option Dataset) (cv2 : Dataset) (out : Option Dataset × Dataset × Nat)
    (h : update_disp ctr2 name m disp cv2 = Except.ok out) :
    out.2.1 = cv2 ∧
    (disp = none → out = (none, cv2, ctr2)) ∧
    (∀ d, disp = some d → ∃ dd, out.1 = some dd ∧
      ((∃ oldD c3, d.confidence_measure = some oldD ∧
          grow_with_indicator ctr2 name m d oldD = Except.ok (dd, c3) ∧
          out.2.2 = c3) ∨
       (d.confidence_measure = none ∧ ∃ a, cv2.confidence_measure = some a ∧
          a.rows = d.nrows ∧ a.cols = d.ncols ∧
          dd = { d with confidence_measure := some a, indicator := cv2.indicator } ∧
          out.2.2 = ctr2))) := by
  cases disp with
  | none =>
      simp only [update_disp] at h
      cases h
      exact ⟨rfl, fun _ => rfl, fun d hd => Option.noConfusion hd⟩
  | some d =>
      simp only [update_disp] at h
      cases hdm : d.confidence_measure with
      | some oldD =>
          simp only [hdm] at h
          cases hg : grow_with_indicator ctr2 name m d oldD with
          | error e =>
              simp only [hg] at h
              rw [except_error_bind] at h
              exact Except.noConfusion h
          | ok p =>
              simp only [hg, except_pure_eq] at h
              cases h
              exact ⟨rfl, fun hn => Option.noConfusion hn,
                fun d1 hd1 => by
                  cases hd1
                  exact ⟨p.1, rfl, Or.inl ⟨oldD, p.2, hdm, by rw [hg], rfl⟩⟩⟩
      | none =>
          simp only [hdm] at h
          cases hcm : cv2.confidence_measure with
          | some a =>
              simp only [hcm] at h
              split at h
              next hsz =>
                cases h
                simp only [Bool.and_eq_true, beq_iff_eq] at hsz
                exact ⟨rfl, fun hn => Option.noConfusion hn,
                  fun d1 hd1 => by
                    cases hd1
                    exact ⟨_, rfl, Or.inr ⟨hdm, a, rfl, hsz.1, hsz.2, rfl, rfl⟩⟩⟩
              next hsz => exact Except.noConfusion h
          | none =>
              simp only [hcm] at h
              exact Except.noConfusion h

/-- A successful call splits into a successful cost-volume half followed by
a successful disparity-map half. -/
theorem allocate_ok_split (ctr : Nat) (name : String) (m : NdArray2)
    (disp : Option Dataset) (cv : Dataset) (out : Option Dataset × Dataset × Nat)
    (h : allocate_confidence_map ctr name m disp cv = Except.ok out) :
    ∃ cv2 ctr2, update_cv ctr name m cv = Except.ok (cv2, ctr2) ∧
      update_disp ctr2 name m disp cv2 = Except.ok out := by
  unfold allocate_confidence_map at h
  obtain ⟨⟨cv2, ctr2⟩, h1, h2⟩ := except_bind_ok _ _ _ h
  exact ⟨cv2, ctr2, h1, h2⟩

/-! ## The claims -/

/-- C1: for every cost volume that already carries a confidence layer of
shape (R, C, K), a successful merge of a new indicator through
`allocate_confidence_map` returns a cost volume whose confidence layer has
shape (R, C, K + 1), whose slices 0..K-1 equal the prior layer's slices,
whose slice K equals the supplied indicator map, and whose indicator-label
sequence is the old sequence with the new name appended. -/
theorem C1_second_indicator_preserves_prior
    (ctr : Nat) (name : String) (m : NdArray2) (disp : Option Dataset) (cv : Dataset)
    (old : NdArray3) (out : Option Dataset × Dataset × Nat)
    (hcv : cv.confidence_measure = some old)
    (hr : m.rows = old.rows) (hc : m.cols = old.cols)
    (hok : allocate_confidence_map ctr name m disp cv = Except.ok out) :
    ∃ a, out.2.1.confidence_measure = some a ∧
      a.rows = old.rows ∧ a.cols = old.cols ∧ a.deep = old.deep + 1 ∧
      (∀ r c k, k < old.deep → a.data r c k = old.data r c k) ∧
      (∀ r c, r < old.rows → c < old.cols → a.data r c old.deep = m.data r c) ∧
      out.2.1.indicator = cv.indicator ++ [name] := by
  obtain ⟨cv2, ctr2, h1, h2⟩ := allocate_ok_split ctr name m disp cv out hok
  have hout : out.2.1 = cv2 := (update_disp_ok ctr2 name m disp cv2 out h2).1
  rw [hout]
  unfold update_cv at h1
  rw [hcv] at h1
  obtain ⟨-, -, -, -, -, -, -, hind, -, a, ha, -, har, hac, had, -, hold, hlast⟩ :=
    grow_with_indicator_ok ctr name m cv old cv2 ctr2 h1
  refine ⟨a, ha, har, hac, had, hold, ?_, hind⟩
  intro r c hrlt hclt
  rw [hlast r c]
  have hbr : bcastIdx m.rows r = r := by
    unfold bcastIdx
    split
    next h1r => omega
    next => rfl
  have hbc2 : bcastIdx m.cols c = c := by
    unfold bcastIdx
    split
    next h1c => omega
    next => rfl
  rw [hbr, hbc2]

/-- C1 witness: the worked example's second merge, `"risk"` into the volume
holding `"ambiguity"`. -/
theorem C1_witness :
    cvAfterFirst.confidence_measure = some layerAfterFirst ∧
    mapRisk.rows = layerAfterFirst.rows ∧ mapRisk.cols = layerAfterFirst.cols ∧
    allocate_confidence_map 1 "risk" mapRisk none cvAfterFirst = Except.ok outSecond ∧
    (∃ a, outSecond.2.1.confidence_measure = some a ∧
      a.rows = layerAfterFirst.rows ∧ a.cols = layerAfterFirst.cols ∧
      a.deep = layerAfterFirst.deep + 1 ∧
      (∀ r c k, k < layerAfterFirst.deep → a.data r c k = layerAfterFirst.data r c k) ∧
      (∀ r c, r < layerAfterFirst.rows → c < layerAfterFirst.cols →
        a.data r c layerAfterFirst.deep = mapRisk.data r c) ∧
      outSecond.2.1.indicator = cvAfterFirst.indicator ++ ["risk"]) :=
  ⟨rfl, rfl, rfl, rfl,
    C1_second_indicator_preserves_prior 1 "risk" mapRisk none cvAfterFirst
      layerAfterFirst outSecond rfl rfl rfl rfl⟩

/-- C2: for every cost volume with no prior confidence layer, a successful
merge of a named (R, C) indicator map returns a cost volume whose confidence
layer is an (R, C, 1) float32 array whose single slice equals the map, with
the one-element label sequence `[name]`. -/
theorem C2_first_indicator
    (ctr : Nat) (name : String) (m : NdArray2) (disp : Option Dataset) (cv : Dataset)
    (out : Option Dataset × Dataset × Nat)
    (hcv : cv.confidence_measure = none)
    (hok : allocate_confidence_map ctr name m disp cv = Except.ok out) :
    ∃ a, out.2.1.confidence_measure = some a ∧
      a.rows = m.rows ∧ a.cols = m.cols ∧ a.deep = 1 ∧
      a.dtype = Dtype.float32 ∧
      (∀ r c k, a.data r c k = m.data r c) ∧
      out.2.1.indicator = [name] := by
  obtain ⟨cv2, ctr2, h1, h2⟩ := allocate_ok_split ctr name m disp cv out hok
  have hout : out.2.1 = cv2 := (update_disp_ok ctr2 name m disp cv2 out h2).1
  rw [hout]
  unfold update_cv at h1
  rw [hcv] at h1
  obtain ⟨-, -, -, -, -, hind, -, a, ha, -, har, hac, had, hdt, hdata⟩ :=
    allocate_first_ok ctr name m cv cv2 ctr2 h1
  exact ⟨a, ha, har, hac, had, hdt, hdata, hind⟩

/-- C2 witness: the worked example's first merge, `"ambiguity"` into a cost
volume with no confidence layer. -/
theorem C2_witness :
    cv0.confidence_measure = none ∧
    allocate_confidence_map 0 "ambiguity" mapAmb none cv0 = Except.ok outFirst ∧
    (∃ a, outFirst.2.1.confidence_measure = some a ∧
      a.rows = mapAmb.rows ∧ a.cols = mapAmb.cols ∧ a.deep = 1 ∧
      a.dtype = Dtype.float32 ∧
      (∀ r c k, a.data r c k = mapAmb.data r c) ∧
      outFirst.2.1.indicator = ["ambiguity"]) :=
  ⟨rfl, rfl,
    C2_first_indicator 0 "ambiguity" mapAmb none cv0 outFirst rfl rfl⟩

/-- Looking up a key right after a dict assignment yields the new value. -/
theorem dictGet_dictSet (r : Registry) (k : String) (v : Impl) :
    dictGet (dictSet r k v) k = some v := by
  induction r with
  | nil => simp [dictSet, dictGet]
  | cons p rest ih =>
      obtain ⟨k1, v1⟩ := p
      by_cases hk : k1 = k
      · simp [dictSet, dictGet, hk]
      · simp [dictSet, dictGet, hk, ih]

/-- C3 counterexample: requesting the unregistered method `"nonexistent"`
from the factory does not raise a recoverable typed error — `__new__` calls
`sys.exit(1)`, i.e. the construction ends in process termination. -/
theorem C3_counterexample_process_exit :
    new_ [] true (some (CfgVal.str "nonexistent")) = (NewResult.systemExit 1, []) := rfl

/-- C3 (amended): for every configuration whose `confidence_method` string
does not name a registered strategy, factory construction terminates the
process via `sys.exit(1)` (after logging the requested method) rather than
raising a recoverable `ConfigurationError`, and the registry mapping is
unchanged by the failed construction. -/
theorem C3_unknown_method_exits_registry_unchanged (avail : Registry) (meth : String)
    (h : dictGet avail meth = none) :
    new_ avail true (some (CfgVal.str meth)) = (NewResult.systemExit 1, avail) := by
  unfold new_
  simp [h]

/-- C3 witness: a one-entry registry queried for `"nonexistent"`. -/
theorem C3_witness :
    dictGet [("std_intensity", Impl.mk 0)] "nonexistent" = none ∧
    new_ [("std_intensity", Impl.mk 0)] true (some (CfgVal.str "nonexistent")) =
      (NewResult.systemExit 1, [("std_intensity", Impl.mk 0)]) :=
  ⟨rfl, C3_unknown_method_exits_registry_unchanged [("std_intensity", Impl.mk 0)]
    "nonexistent" rfl⟩

/-- C8: registering a second implementation under an already-used short name
overwrites the earlier registration without any collision error, and factory
construction with that name afterwards returns an instance of the
later-registered implementation. -/
theorem C8_later_registration_wins (r : Registry) (n : String) (a b : Impl)
    (hab : a ≠ b) :
    dictGet (register_subclass (register_subclass r n a) n b) n = some b ∧
    (new_ (register_subclass (register_subclass r n a) n b) true
        (some (CfgVal.str n))).1 = NewResult.instAlloc b := by
  have hg : dictGet (register_subclass (register_subclass r n a) n b) n = some b :=
    dictGet_dictSet (register_subclass r n a) n b
  refine ⟨hg, ?_⟩
  unfold new_
  simp [hg]

/-- C8 witness: two distinct implementations registered under `"risk"` on an
empty registry. -/
theorem C8_witness :
    (Impl.mk 0 ≠ Impl.mk 1) ∧
    (dictGet (register_subclass (register_subclass [] "risk" (Impl.mk 0)) "risk"
        (Impl.mk 1)) "risk" = some (Impl.mk 1) ∧
     (new_ (register_subclass (register_subclass [] "risk" (Impl.mk 0)) "risk"
        (Impl.mk 1)) true (some (CfgVal.str "risk"))).1 =
       NewResult.instAlloc (Impl.mk 1)) :=
  ⟨by decide, C8_later_registration_wins [] "risk" (Impl.mk 0) (Impl.mk 1) (by decide)⟩

/-- C9 counterexample: constructing the abstract class with a non-string
`confidence_method` raises nothing at all — `__new__` falls through its
branches and the construction silently evaluates to `None`, instead of
failing with a `ConfigurationError`. -/
theorem C9_counterexample_nonstring_silent :
    new_ [] true (some CfgVal.nonStr) = (NewResult.noneValue, []) := rfl

/-- C9 (amended): for every registry, constructing the abstract class with
the `confidence_method` key missing raises an uncaught `KeyError` (not a
`ConfigurationError`), and constructing it with a non-string value silently
evaluates to `None`, producing neither an instance nor an error. -/
theorem C9_missing_key_or_nonstring (avail : Registry) :
    new_ avail true none = (NewResult.keyError "confidence_method", avail) ∧
    new_ avail true (some CfgVal.nonStr) = (NewResult.noneValue, avail) :=
  ⟨rfl, rfl⟩

/-- C4: in every successful grow-by-one merge on a container that already
had a confidence layer of depth K, every position of the new layer with
indicator index below K equals the prior stored value, and — provided the
prior layer held no NaN at its in-range positions — is never the NaN
sentinel: the NaN fill of the freshly allocated array is fully overwritten
by the copy of the old slices. -/
theorem C4_nan_fill_overwritten
    (ctr : Nat) (name : String) (m : NdArray2) (ds : Dataset) (old : NdArray3)
    (ds2 : Dataset) (c2 : Nat)
    (h : grow_with_indicator ctr name m ds old = Except.ok (ds2, c2))
    (hnonan : ∀ r c k, r < old.rows → c < old.cols → k < old.deep →
      old.data r c k ≠ Val.nan) :
    ∃ a, ds2.confidence_measure = some a ∧
      ∀ r c k, r < old.rows → c < old.cols → k < old.deep →
        a.data r c k = old.data r c k ∧ a.data r c k ≠ Val.nan := by
  obtain ⟨-, -, -, -, -, -, -, -, -, a, ha, -, -, -, -, -, hold, -⟩ :=
    grow_with_indicator_ok ctr name m ds old ds2 c2 h
  refine ⟨a, ha, fun r c k hr hc hk => ⟨hold r c k hk, ?_⟩⟩
  rw [hold r c k hk]
  exact hnonan r c k hr hc hk

/-- C4 witness: growing the worked example's one-indicator layer by
`"risk"`. -/
theorem C4_witness :
    grow_with_indicator 1 "risk" mapRisk cvAfterFirst layerAfterFirst =
      Except.ok (growSecondOut.1, growSecondOut.2) ∧
    (∀ r c k, r < layerAfterFirst.rows → c < layerAfterFirst.cols →
      k < layerAfterFirst.deep → layerAfterFirst.data r c k ≠ Val.nan) ∧
    (∃ a, growSecondOut.1.confidence_measure = some a ∧
      ∀ r c k, r < layerAfterFirst.rows → c < layerAfterFirst.cols →
        k < layerAfterFirst.deep →
        a.data r c k = layerAfterFirst.data r c k ∧ a.data r c k ≠ Val.nan) :=
  ⟨rfl, fun r c k h1 h2 h3 hEq => Val.noConfusion hEq,
    C4_nan_fill_overwritten 1 "risk" mapRisk cvAfterFirst layerAfterFirst
      growSecondOut.1 growSecondOut.2 rfl
      (fun r c k h1 h2 h3 hEq => Val.noConfusion hEq)⟩

/-- C6: for every non-null disparity map with no prior confidence layer, a
successful merge gives the disparity map the very confidence layer freshly
built for the cost volume — the same array value, including the same
allocation identifier, so shared rather than copied storage — along with the
cost volume's indicator labels. -/
theorem C6_disparity_map_aliases_layer
    (ctr : Nat) (name : String) (m : NdArray2) (d : Dataset) (cv : Dataset)
    (out : Option Dataset × Dataset × Nat)
    (hd : d.confidence_measure = none)
    (hok : allocate_confidence_map ctr name m (some d) cv = Except.ok out) :
    ∃ dd a, out.1 = some dd ∧
      out.2.1.confidence_measure = some a ∧
      dd.confidence_measure = some a ∧
      a.aid = ctr ∧
      dd.indicator = out.2.1.indicator := by
  obtain ⟨cv2, ctr2, h1, h2⟩ := allocate_ok_split ctr name m (some d) cv out hok
  obtain ⟨hout, -, hsome⟩ := update_disp_ok ctr2 name m (some d) cv2 out h2
  obtain ⟨dd, hdd, hcase⟩ := hsome d rfl
  cases hcase with
  | inl hgrow =>
      obtain ⟨oldD, -, hdm, -⟩ := hgrow
      rw [hd] at hdm
      exact Option.noConfusion hdm
  | inr halias =>
      obtain ⟨-, a, hcm, -, -, hddeq, -⟩ := halias
      obtain ⟨-, -, -, a1, ha1, haid1, -⟩ := update_cv_ok ctr name m cv cv2 ctr2 h1
      have haa : a = a1 := by
        rw [hcm] at ha1
        exact ((Option.some.injEq a1 a).mp ha1.symm).symm
      refine ⟨dd, a, hdd, ?_, ?_, ?_, ?_⟩
      · rw [hout]; exact hcm
      · rw [hddeq]
      · rw [haa]; exact haid1
      · rw [hddeq, hout]

/-- C6 witness: merging into `cv0` with the layerless disparity map
`disp0`. -/
theorem C6_witness :
    disp0.confidence_measure = none ∧
    allocate_confidence_map 0 "ambiguity" mapAmb (some disp0) cv0 = Except.ok outAlias ∧
    (∃ dd a, outAlias.1 = some dd ∧
      outAlias.2.1.confidence_measure = some a ∧
      dd.confidence_measure = some a ∧
      a.aid = 0 ∧
      dd.indicator = outAlias.2.1.indicator) :=
  ⟨rfl, rfl,
    C6_disparity_map_aliases_layer 0 "ambiguity" mapAmb disp0 cv0 outAlias rfl rfl⟩

/-- C7: calling `allocate_confidence_map` with a null disparity map returns
a null disparity-map component and updates only the cost volume: the call is
exactly the cost-volume half with `None` passed through. -/
theorem C7_null_disparity_map (ctr : Nat) (name : String) (m : NdArray2)
    (cv : Dataset) :
    allocate_confidence_map ctr name m none cv =
      (update_cv ctr name m cv).map (fun p => (none, p.1, p.2)) := by
  unfold allocate_confidence_map
  cases h : update_cv ctr name m cv with
  | error e => rfl
  | ok p => rfl

/-- C5: every call to `allocate_confidence_map` is all-or-nothing: either it
fails — returning no datasets at all, so the caller keeps both containers
unchanged — or it succeeds and both returned containers carry the new
indicator consistently (layer depth equals the label count and the new name
is the last label). Moreover no shape validation is performed: an indicator
map whose row extent neither matches the target's nor broadcasts (is 1)
makes the call fail with a low-level array error. -/
theorem C5_all_or_nothing (ctr : Nat) (name : String) (m : NdArray2)
    (disp : Option Dataset) (cv : Dataset) :
    ((∃ e, allocate_confidence_map ctr name m disp cv = Except.error e) ∨
     (∃ out, allocate_confidence_map ctr name m disp cv = Except.ok out ∧
       (∃ a, out.2.1.confidence_measure = some a ∧
          a.deep = out.2.1.indicator.length ∧
          out.2.1.indicator.getLast? = some name) ∧
       (∀ d, disp = some d → ∃ dd, out.1 = some dd ∧
          ∃ b, dd.confidence_measure = some b ∧
            b.deep = dd.indicator.length ∧
            dd.indicator.getLast? = some name))) ∧
    (∀ old, cv.confidence_measure = some old →
      canBroadcast m.rows old.rows = false →
      ∃ e, allocate_confidence_map ctr name m disp cv = Except.error e) := by
  constructor
  · cases hres : allocate_confidence_map ctr name m disp cv with
    | error e => exact Or.inl ⟨e, rfl⟩
    | ok out =>
        obtain ⟨cv2, ctr2, h1, h2⟩ := allocate_ok_split ctr name m disp cv out hres
        obtain ⟨hout, -, hsome⟩ := update_disp_ok ctr2 name m disp cv2 out h2
        obtain ⟨-, -, -, a, ha, -, -, hdeep, hlast⟩ :=
          update_cv_ok ctr name m cv cv2 ctr2 h1
        refine Or.inr ⟨out, rfl,
          ⟨a, by rw [hout]; exact ha, by rw [hout]; exact hdeep,
            by rw [hout]; exact hlast⟩, ?_⟩
        intro d hd
        obtain ⟨dd, hdd, hcase⟩ := hsome d hd
        refine ⟨dd, hdd, ?_⟩
        cases hcase with
        | inl hgrow =>
            obtain ⟨oldD, c3, hdm, hg, -⟩ := hgrow
            obtain ⟨-, -, -, hdeepD, -, -, -, hindD, -, b, hb, -, -, -, hbdeep, -, -, -⟩ :=
              grow_with_indicator_ok ctr2 name m d oldD dd c3 hg
            refine ⟨b, hb, ?_, ?_⟩
            · rw [hbdeep, hindD, List.length_append, List.length_singleton, hdeepD]
            · rw [hindD]; exact getLast_append_singleton _ _
        | inr halias =>
            obtain ⟨-, b, hbcm, -, -, hddeq, -⟩ := halias
            have hba : b = a := by
              rw [ha] at hbcm
              exact ((Option.some.injEq a b).mp hbcm).symm
            subst hba
            exact ⟨b, by rw [hddeq], by rw [hddeq]; exact hdeep,
              by rw [hddeq]; exact hlast⟩
  · intro old hcv hbc
    obtain ⟨e, he⟩ := update_cv_mismatch ctr name m cv old hcv hbc
    exact ⟨e, allocate_error_of_cv_error ctr name m disp cv e he⟩

/-- C5 witness: the 3×2 map `mapBad` against the 2×2 volume
`cvAfterFirst` makes the call fail. -/
theorem C5_witness :
    cvAfterFirst.confidence_measure = some layerAfterFirst ∧
    canBroadcast mapBad.rows layerAfterFirst.rows = false ∧
    (∃ e, allocate_confidence_map 1 "risk" mapBad none cvAfterFirst = Except.error e) :=
  ⟨rfl, rfl,
    (C5_all_or_nothing 1 "risk" mapBad none cvAfterFirst).2 layerAfterFirst rfl rfl⟩

/-- C10 counterexample: a cost volume carrying a second data variable on
the `indicator` dimension loses that variable during a merge —
`drop_dims('indicator')` removes every variable on that dimension, not only
`confidence_measure` — so not every data variable other than
`confidence_measure` is unchanged. -/
theorem C10_counterexample_extra_indicator_var :
    allocate_confidence_map 1 "risk" mapOnes none cvWithExtra = Except.ok outExtra ∧
    cvWithExtra.data_vars = [⟨"extra_metric", true, 5⟩] ∧
    outExtra.2.1.data_vars = [] :=
  ⟨rfl, rfl, rfl⟩

/-- C10 (amended): in every successful call, the returned cost volume keeps
its row/col extents, and every data variable **not** carried by the
`indicator` dimension is unchanged: when a confidence layer already existed
the rebuilt dataset's variables are exactly the old ones with the
indicator-dimension variables dropped (and `confidence_measure` replaced),
and when none existed all data variables are kept. -/
theorem C10_frame_off_indicator_vars
    (ctr : Nat) (name : String) (m : NdArray2) (disp : Option Dataset) (cv : Dataset)
    (out : Option Dataset × Dataset × Nat)
    (hok : allocate_confidence_map ctr name m disp cv = Except.ok out) :
    out.2.1.nrows = cv.nrows ∧ out.2.1.ncols = cv.ncols ∧
    (∀ old, cv.confidence_measure = some old →
      out.2.1.data_vars = cv.data_vars.filter (fun v => !v.onIndicator)) ∧
    (cv.confidence_measure = none → out.2.1.data_vars = cv.data_vars) ∧
    (∀ v, v ∈ cv.data_vars → v.onIndicator = false → v ∈ out.2.1.data_vars) := by
  obtain ⟨cv2, ctr2, h1, h2⟩ := allocate_ok_split ctr name m disp cv out hok
  have hout : out.2.1 = cv2 := (update_disp_ok ctr2 name m disp cv2 out h2).1
  rw [hout]
  obtain ⟨-, hrows, hcols, -⟩ := update_cv_ok ctr name m cv cv2 ctr2 h1
  unfold update_cv at h1
  cases hm : cv.confidence_measure with
  | some old =>
      rw [hm] at h1
      obtain ⟨-, -, -, -, -, -, -, -, hvars, -⟩ :=
        grow_with_indicator_ok ctr name m cv old cv2 ctr2 h1
      refine ⟨hrows, hcols, fun _ _ => hvars,
        fun hn => Option.noConfusion hn, ?_⟩
      intro v hv hvi
      rw [hvars]
      exact List.mem_filter.2 ⟨hv, by simp [hvi]⟩
  | none =>
      rw [hm] at h1
      obtain ⟨-, -, -, -, -, -, hvars, -⟩ :=
        allocate_first_ok ctr name m cv cv2 ctr2 h1
      refine ⟨hrows, hcols,
        fun old hold => Option.noConfusion hold,
        fun _ => hvars, ?_⟩
      intro v hv hvi
      rw [hvars]
      exact hv

/-- C10 witness: the worked example's second merge, whose only other data
variable does not live on the indicator dimension. -/
theorem C10_witness :
    allocate_confidence_map 1 "risk" mapRisk none cvAfterFirst = Except.ok outSecond ∧
    (outSecond.2.1.nrows = cvAfterFirst.nrows ∧
     outSecond.2.1.ncols = cvAfterFirst.ncols ∧
     (∀ old, cvAfterFirst.confidence_measure = some old →
       outSecond.2.1.data_vars =
         cvAfterFirst.data_vars.filter (fun v => !v.onIndicator)) ∧
     (cvAfterFirst.confidence_measure = none →
       outSecond.2.1.data_vars = cvAfterFirst.data_vars) ∧
     (∀ v, v ∈ cvAfterFirst.data_vars → v.onIndicator = false →
       v ∈ outSecond.2.1.data_vars)) :=
  ⟨rfl, C10_frame_off_indicator_vars 1 "risk" mapRisk none cvAfterFirst outSecond rfl⟩

end PandoraConf
